import Mathlib

/-!
Shallow embedding of the starry-bot capture-and-distribution engine.

Sources embedded here:
* `src/core/interface/src/services/graphics_capture.rs`
  (CapturedFrame, FrameFormat, CaptureSource, CaptureMetrics, the broadcast
  publish step shared by `FrameHandler::on_frame_arrived` and
  `DxgiCapture::start_capture_loop`, `GraphicsCaptureService`).
* `src/core/interface/src/services/minimap_v2.rs`
  (MinimapMetrics, `MinimapService::process_minimap_frame` and its encode
  helpers, the spawned processing-loop body, `stop_capture`, `is_capturing`).
* `src/core/platforms/src/windows_capture/dxgi_desktop_duplication.rs`
  (DxgiError, the duplication-session state machine, `capture_frame`,
  `reset`, `initialize_primary_output`, `is_active`).
* `src/core/platforms/src/windows_capture/texture_processor.rs`
  (ProcessedFrame, ProcessingMethod, `TextureProcessor::extract_frame_data`).

Bytes are modelled as `Nat`, byte buffers as `List Nat`, and timestamps /
elapsed millisecond readings as `Nat` parameters (wall-clock values are
nondeterministic inputs).  The tokio `broadcast`, `watch` channels and the
`image` JPEG encoder are external libraries whose documented behaviour the
repository code relies on; they are modelled by executable Lean functions
that follow that documented behaviour (see the comments at each).
-/

/-- `FrameFormat` from `graphics_capture.rs` (the platform-side enum in
`texture_processor.rs` has the same constructors and is identified with it;
`DxgiCapture::convert_platform_format` below is the explicit conversion). -/
inductive FrameFormat where
  | Bgra8
  | Rgba8
  | Rgb8
  | Jpeg
deriving DecidableEq, Repr

/-- `CaptureSource` from `graphics_capture.rs`. -/
inductive CaptureSource where
  | WindowsGraphicsCapture
  | DxgiDesktopDuplication
deriving DecidableEq, Repr

/-- `CapturedFrame` from `graphics_capture.rs`. -/
structure CapturedFrame where
  data : List Nat
  width : Nat
  height : Nat
  format : FrameFormat
  timestamp : Nat
  source : CaptureSource
deriving DecidableEq, Repr

/-- `CaptureMetrics` from `graphics_capture.rs`: four atomic counters. -/
structure CaptureMetrics where
  frames_captured : Nat
  frames_dropped : Nat
  total_capture_time_ms : Nat
  active_subscribers : Nat
deriving DecidableEq, Repr

/-- `CaptureMetrics::new`. -/
def CaptureMetrics.new : CaptureMetrics :=
  { frames_captured := 0
    frames_dropped := 0
    total_capture_time_ms := 0
    active_subscribers := 0 }

/-- State of a `tokio::sync::broadcast` channel as used by
`GraphicsCaptureService`: a bounded ring of retained frames.  `history`
records every value accepted by `send` (oldest first); only the last
`capacity` entries are still retained for receivers.  `receiver_count`
is the number of live receiver handles. -/
structure BroadcastState where
  capacity : Nat
  history : List CapturedFrame
  receiver_count : Nat
deriving DecidableEq, Repr

/-- `tokio::sync::broadcast::Sender::send`, per the tokio documentation:
with at least one active receiver the value is stored and `Ok` is returned;
with zero active receivers the value is returned inside `Err(SendError)`
and is not stored.  The `Bool` is `true` exactly when the send succeeded. -/
def broadcast_send (hub : BroadcastState) (f : CapturedFrame) :
    BroadcastState × Bool :=
  if 0 < hub.receiver_count then
    ({ hub with history := hub.history ++ [f] }, true)
  else
    (hub, false)

/-- The publish step shared verbatim by `FrameHandler::on_frame_arrived`
(graphics_capture.rs:144-157) and `DxgiCapture::start_capture_loop`
(graphics_capture.rs:215-229): store the current receiver count into
`active_subscribers`, send the frame, bump `frames_captured` on `Ok` and
`frames_dropped` on `Err`, then add the elapsed milliseconds to
`total_capture_time_ms`. -/
def publish_step (hub : BroadcastState) (m : CaptureMetrics)
    (f : CapturedFrame) (elapsed : Nat) : BroadcastState × CaptureMetrics :=
  let m1 := { m with active_subscribers := hub.receiver_count }
  let sent := broadcast_send hub f
  let m2 :=
    if sent.2 then
      { m1 with frames_captured := m1.frames_captured + 1 }
    else
      { m1 with frames_dropped := m1.frames_dropped + 1 }
  (sent.1,
   { m2 with total_capture_time_ms := m2.total_capture_time_ms + elapsed })

/-- Outcome of one `Receiver::recv().await` call. -/
inductive RecvAttempt where
  | got (f : CapturedFrame) (newCursor : Nat)
  | lagged (skipped : Nat) (newCursor : Nat)
  | closed
  | pending
deriving DecidableEq, Repr

/-- Index of the oldest still-retained frame of the hub. -/
def oldest_retained (hub : BroadcastState) : Nat :=
  hub.history.length - min hub.history.length hub.capacity

/-- `tokio::sync::broadcast::Receiver::recv`, per the tokio documentation:
a receiver whose cursor has fallen behind the retained window obtains
`RecvError::Lagged(n)` where `n` is the exact number of frames it will
never see, and its cursor jumps to the oldest retained frame; otherwise it
obtains the next frame in publish order, or `Closed` when the channel is
closed and drained, or suspends (`pending`). -/
def recv_next (hub : BroadcastState) (hubClosed : Bool) (cursor : Nat) :
    RecvAttempt :=
  let oldest := oldest_retained hub
  if cursor < oldest then
    RecvAttempt.lagged (oldest - cursor) oldest
  else if h : cursor < hub.history.length then
    RecvAttempt.got (hub.history.get ⟨cursor, h⟩) (cursor + 1)
  else if hubClosed then
    RecvAttempt.closed
  else
    RecvAttempt.pending

/-- `GraphicsCaptureService::new` builds its hub with
`broadcast::channel(100)` and no subscribers yet. -/
def GraphicsCaptureService.new_hub : BroadcastState :=
  { capacity := 100, history := [], receiver_count := 0 }

/-- `MinimapMetrics` from `minimap_v2.rs`: six atomic counters. -/
structure MinimapMetrics where
  frames_processed : Nat
  frames_dropped : Nat
  opencv_detections : Nat
  total_processing_time_ms : Nat
  total_opencv_time_ms : Nat
  total_encode_time_ms : Nat
deriving DecidableEq, Repr

/-- `MinimapMetrics::new`. -/
def MinimapMetrics.new : MinimapMetrics :=
  { frames_processed := 0
    frames_dropped := 0
    opencv_detections := 0
    total_processing_time_ms := 0
    total_opencv_time_ms := 0
    total_encode_time_ms := 0 }

/-- `MinimapService::detect_minimap_opencv_fast` (minimap_v2.rs:374-383):
the placeholder heuristic `frame.width >= 640 && frame.height >= 360`. -/
def detect_minimap_opencv_fast (frame : CapturedFrame) : Bool :=
  640 ≤ frame.width && 360 ≤ frame.height

/-- The BGRA→RGB conversion done with `data.chunks_exact(4)` pushing
`[chunk[2], chunk[1], chunk[0]]` (minimap_v2.rs, `encode_frame_webp`):
complete 4-byte chunks are converted, a trailing partial chunk is dropped,
exactly as `chunks_exact` does. -/
def bgra_to_rgb : List Nat → List Nat
  | b :: g :: r :: _a :: rest => r :: g :: b :: bgra_to_rgb rest
  | _ => []

/-- The RGBA→RGB conversion done with `data.chunks_exact(4)` pushing
`[chunk[0], chunk[1], chunk[2]]` (drop alpha). -/
def rgba_to_rgb : List Nat → List Nat
  | r :: g :: b :: _a :: rest => r :: g :: b :: rgba_to_rgb rest
  | _ => []

/-- Model of `image::codecs::jpeg::JpegEncoder::new_with_quality(q)
.encode(rgb, w, h, ExtendedColorType::Rgb8)` (external `image` crate):
encoding succeeds iff the buffer length matches `w * h * 3` bytes, and the
produced container records the dimensions, quality and payload injectively
(the codec itself is opaque compressed data; what matters to this
development is that the output decodes back to dimensions `w × h`). -/
def jpeg_encode_rgb (quality : Nat) (rgb : List Nat) (w h : Nat) :
    Except String (List Nat) :=
  if rgb.length = w * h * 3 then
    Except.ok (w :: h :: quality :: rgb)
  else
    Except.error "JPEG encode failed: buffer size does not match dimensions"

/-- Dimensions an encoded output decodes to, for the codec model above. -/
def jpeg_dims (bytes : List Nat) : Option (Nat × Nat) :=
  match bytes with
  | w :: h :: _ => some (w, h)
  | _ => none

/-- One inner-loop body of `MinimapService::downsample_and_encode`
(minimap_v2.rs:452-465): pick the nearest source pixel by the integer
scale factors and push its three colour bytes (BGR reordered to RGB for
BGRA input), guarded by `src_idx + 3 < data.len()`. -/
def downsample_pixel (data : List Nat) (src_w scale_x scale_y : Nat)
    (is_bgra : Bool) (x y : Nat) : List Nat :=
  let src_x := x * scale_x
  let src_y := y * scale_y
  let src_idx := (src_y * src_w + src_x) * 4
  if src_idx + 3 < data.length then
    if is_bgra then
      [data.getD (src_idx + 2) 0, data.getD (src_idx + 1) 0,
       data.getD src_idx 0]
    else
      [data.getD src_idx 0, data.getD (src_idx + 1) 0,
       data.getD (src_idx + 2) 0]
  else
    []

/-- `MinimapService::downsample_and_encode` (minimap_v2.rs:444-474):
box-filter downsampling by integer scale factors
`scale_x = src_width / dst_width`, `scale_y = src_height / dst_height`
over the `for y in 0..dst_height { for x in 0..dst_width { .. } }` loops,
followed by quality-30 JPEG encoding at `dst_width × dst_height`. -/
def downsample_and_encode (data : List Nat) (src_w src_h dst_w dst_h : Nat)
    (is_bgra : Bool) : Except String (List Nat) :=
  let scale_x := src_w / dst_w
  let scale_y := src_h / dst_h
  let downsampled :=
    ((List.range dst_h).map (fun y =>
      ((List.range dst_w).map (fun x =>
        downsample_pixel data src_w scale_x scale_y is_bgra x y)).flatten)).flatten
  jpeg_encode_rgb 30 downsampled dst_w dst_h

/-- One inner-loop body of `MinimapService::downsample_rgb_and_encode`
(minimap_v2.rs:344-362), 3-byte stride, guarded by
`src_idx + 2 < data.len()`. -/
def downsample_rgb_pixel (data : List Nat) (src_w scale_x scale_y x y : Nat) :
    List Nat :=
  let src_x := x * scale_x
  let src_y := y * scale_y
  let src_idx := (src_y * src_w + src_x) * 3
  if src_idx + 2 < data.length then
    [data.getD src_idx 0, data.getD (src_idx + 1) 0, data.getD (src_idx + 2) 0]
  else
    []

/-- `MinimapService::downsample_rgb_and_encode` (minimap_v2.rs:344-371). -/
def downsample_rgb_and_encode (data : List Nat) (src_w src_h dst_w dst_h : Nat) :
    Except String (List Nat) :=
  let scale_x := src_w / dst_w
  let scale_y := src_h / dst_h
  let downsampled :=
    ((List.range dst_h).map (fun y =>
      ((List.range dst_w).map (fun x =>
        downsample_rgb_pixel data src_w scale_x scale_y x y)).flatten)).flatten
  jpeg_encode_rgb 30 downsampled dst_w dst_h

/-- `MinimapService::encode_frame_webp` (minimap_v2.rs:477-511): convert
BGRA or RGBA input to RGB, then (despite the name) quality-30 JPEG encode
at the original `width × height`. -/
def encode_frame_webp (data : List Nat) (w h : Nat) (is_bgra : Bool) :
    Except String (List Nat) :=
  let rgb := if is_bgra then bgra_to_rgb data else rgba_to_rgb data
  jpeg_encode_rgb 30 rgb w h

/-- `MinimapService::encode_rgb_webp` (minimap_v2.rs:514-520). -/
def encode_rgb_webp (data : List Nat) (w h : Nat) : Except String (List Nat) :=
  jpeg_encode_rgb 30 data w h

/-- The `let result = match frame.format { .. }` encode step of
`MinimapService::process_minimap_frame` (minimap_v2.rs:299-335):
JPEG frames pass through byte-identical; RGBA/BGRA frames are downsampled
to 800×450 when a dimension exceeds the target, else encoded at their own
size; RGB frames are downsampled when the pixel count exceeds 1,000,000. -/
def encode_step (frame : CapturedFrame) : Except String (List Nat) :=
  match frame.format with
  | FrameFormat.Jpeg => Except.ok frame.data
  | FrameFormat.Rgba8 | FrameFormat.Bgra8 =>
      let target_width := 800
      let target_height := 450
      if target_width < frame.width || target_height < frame.height then
        downsample_and_encode frame.data frame.width frame.height
          target_width target_height (frame.format = FrameFormat.Bgra8)
      else
        encode_frame_webp frame.data frame.width frame.height
          (frame.format = FrameFormat.Bgra8)
  | FrameFormat.Rgb8 =>
      if 1000000 < frame.width * frame.height then
        downsample_rgb_and_encode frame.data frame.width frame.height 800 450
      else
        encode_rgb_webp frame.data frame.width frame.height

/-- `MinimapService::process_minimap_frame` (minimap_v2.rs:272-341):
reject empty frame data, run the detection heuristic (charging its elapsed
time and bumping `opencv_detections` on a hit), then run the encode step;
on encode success its elapsed time is charged to `total_encode_time_ms`
(on failure the `?` operator returns before that line). -/
def process_minimap_frame (frame : CapturedFrame) (m : MinimapMetrics)
    (opencv_time encode_time : Nat) :
    Except String (List Nat) × MinimapMetrics :=
  if frame.data.isEmpty then
    (Except.error
       "Empty frame data received from graphics capture (DXGI placeholder)",
     m)
  else
    let m1 := { m with
      total_opencv_time_ms := m.total_opencv_time_ms + opencv_time }
    let m2 :=
      if detect_minimap_opencv_fast frame then
        { m1 with opencv_detections := m1.opencv_detections + 1 }
      else
        m1
    match encode_step frame with
    | Except.error e => (Except.error e, m2)
    | Except.ok bytes =>
        (Except.ok bytes,
         { m2 with
             total_encode_time_ms := m2.total_encode_time_ms + encode_time })

/-- The three `recv()` outcomes matched by the processing loop spawned in
`MinimapService::start_capture` (minimap_v2.rs:186-225). -/
inductive RecvOutcome where
  | ok (f : CapturedFrame)
  | lagged (skipped : Nat)
  | closed
deriving DecidableEq, Repr

/-- Observable state of the processing loop: the minimap metrics and the
latest value held by the `watch` channel (the single-slot latest-value
channel to the UI). -/
structure LoopState where
  metrics : MinimapMetrics
  latest : Option (List Nat)
deriving DecidableEq, Repr

/-- One iteration body of the processing loop spawned in
`MinimapService::start_capture` (minimap_v2.rs:185-226).  The returned
`Bool` is `false` exactly when the iteration executes `break` (the
`Closed` arm).  `watch_send_ok` is whether `frame_sender.send` succeeds
(a `tokio::sync::watch` send fails only when every receiver was dropped);
`opencv_time`, `encode_time` and `proc_elapsed` are the wall-clock
readings of this iteration. -/
def minimap_loop_iter (r : RecvOutcome) (st : LoopState)
    (watch_send_ok : Bool) (opencv_time encode_time proc_elapsed : Nat) :
    LoopState × Bool :=
  match r with
  | RecvOutcome.ok frame =>
      let pr := process_minimap_frame frame st.metrics opencv_time encode_time
      match pr.1 with
      | Except.ok bytes =>
          if watch_send_ok then
            let m := { pr.2 with
              frames_processed := pr.2.frames_processed + 1 }
            ({ metrics := { m with
                 total_processing_time_ms :=
                   m.total_processing_time_ms + proc_elapsed }
               latest := some bytes }, true)
          else
            let m := { pr.2 with
              frames_dropped := pr.2.frames_dropped + 1 }
            ({ metrics := { m with
                 total_processing_time_ms :=
                   m.total_processing_time_ms + proc_elapsed }
               latest := st.latest }, true)
      | Except.error _ =>
          let m := { pr.2 with
            frames_dropped := pr.2.frames_dropped + 1 }
          ({ metrics := { m with
               total_processing_time_ms :=
                 m.total_processing_time_ms + proc_elapsed }
             latest := st.latest }, true)
  | RecvOutcome.lagged skipped =>
      ({ metrics := { st.metrics with
           frames_dropped := st.metrics.frames_dropped + skipped }
         latest := st.latest }, true)
  | RecvOutcome.closed => (st, false)

/-- Observable state of `GraphicsCaptureService` for lifecycle queries:
whether a Windows-Graphics-Capture control and/or a DXGI capture instance
is currently stored (`capture_control.lock().is_some()`,
`dxgi_capture.lock().is_some()`). -/
structure GraphicsCaptureState where
  capture_control : Bool
  dxgi_capture : Bool
deriving DecidableEq, Repr

/-- `GraphicsCaptureService::is_capturing` (graphics_capture.rs:369-372). -/
def GraphicsCaptureService.is_capturing (g : GraphicsCaptureState) : Bool :=
  g.capture_control || g.dxgi_capture

/-- `GraphicsCaptureService::stop_capture` (graphics_capture.rs:353-361):
take and stop the capture control, drop the DXGI capture. -/
def GraphicsCaptureService.stop_capture (_g : GraphicsCaptureState) :
    GraphicsCaptureState :=
  { capture_control := false, dxgi_capture := false }

/-- Observable state of `MinimapService` (minimap_v2.rs:68-83): the two
control flags, the target window title, whether a broadcast subscription
is held, the latest value of the watch channel, and the owned graphics
service state. -/
structure MinimapServiceState where
  is_processing : Bool
  is_stopping : Bool
  current_window_title : Option String
  has_frame_receiver : Bool
  latest : Option (List Nat)
  graphics : GraphicsCaptureState
deriving DecidableEq, Repr

/-- `MinimapService::is_capturing` (minimap_v2.rs:107-110): returns the
internal `is_processing` flag. -/
def MinimapService.is_capturing (s : MinimapServiceState) : Bool :=
  s.is_processing

/-- `MinimapService::stop_capture` (minimap_v2.rs:235-269).  Returns the
new state, whether the teardown sequence ran, and whether the call
returned `Ok` (both paths do).  If the `is_stopping` guard is already set
the call returns `Ok` immediately with no side effects; otherwise it sets
the guard, clears `is_processing`, waits the settle delay, clears the
window title and subscription, publishes `None` to the watch channel,
stops the graphics service, and finally clears the guard. -/
def MinimapService.stop_capture (s : MinimapServiceState) :
    MinimapServiceState × Bool × Bool :=
  if s.is_stopping then
    (s, false, true)
  else
    let s1 := { s with is_stopping := true }
    let s2 := { s1 with is_processing := false }
    let s3 := { s2 with current_window_title := none, has_frame_receiver := false }
    let s4 := { s3 with latest := none }
    let s5 := { s4 with graphics := GraphicsCaptureService.stop_capture s4.graphics }
    let s6 := { s5 with is_stopping := false }
    (s6, true, true)

/-- `DxgiError` from `dxgi_desktop_duplication.rs` (string payloads of the
construction-failure variants are kept abstract). -/
inductive DxgiError where
  | FactoryCreation
  | DeviceCreation
  | AdapterError
  | OutputError
  | DuplicationError
  | AccessLost
  | Timeout
  | InvalidCall
  | WindowsError
deriving DecidableEq, Repr

/-- GPU texture handle (opaque to this development). -/
structure Texture where
  id : Nat
deriving DecidableEq, Repr

/-- Session-relevant state of `DxgiDesktopDuplication`
(dxgi_desktop_duplication.rs:42-47): whether the
`IDXGIOutputDuplication` session is present.  The device, context and
texture processor are external GPU handles held for the whole lifetime. -/
structure DxgiDesktopDuplication where
  duplication : Option Unit
deriving DecidableEq, Repr

/-- Outcome of the OS call `AcquireNextFrame` inside
`DxgiDesktopDuplication::capture_frame`, an input of the environment. -/
inductive AcquireResult where
  | frame (t : Texture)
  | noResource
  | errTimeout
  | errAccessLost
  | errInvalidCall
  | errOther
deriving DecidableEq, Repr

/-- `DxgiDesktopDuplication::capture_frame`
(dxgi_desktop_duplication.rs:117-154): errors with `InvalidCall` when no
session is bound; otherwise maps the OS outcome: a frame or a missing
resource or `DXGI_ERROR_WAIT_TIMEOUT` give `Ok`, `DXGI_ERROR_ACCESS_LOST`
clears the session and gives `Err(AccessLost)`, `DXGI_ERROR_INVALID_CALL`
gives `Err(InvalidCall)`, anything else `Err(WindowsError)`. -/
def DxgiDesktopDuplication.capture_frame (s : DxgiDesktopDuplication)
    (os : AcquireResult) :
    DxgiDesktopDuplication × Except DxgiError (Option Texture) :=
  match s.duplication with
  | none => (s, Except.error DxgiError.InvalidCall)
  | some _ =>
      match os with
      | AcquireResult.frame t => (s, Except.ok (some t))
      | AcquireResult.noResource => (s, Except.ok none)
      | AcquireResult.errTimeout => (s, Except.ok none)
      | AcquireResult.errAccessLost =>
          ({ duplication := none }, Except.error DxgiError.AccessLost)
      | AcquireResult.errInvalidCall => (s, Except.error DxgiError.InvalidCall)
      | AcquireResult.errOther => (s, Except.error DxgiError.WindowsError)

/-- `DxgiDesktopDuplication::is_active`
(dxgi_desktop_duplication.rs:180-182). -/
def DxgiDesktopDuplication.is_active (s : DxgiDesktopDuplication) : Bool :=
  s.duplication.isSome

/-- `DxgiDesktopDuplication::reset` (dxgi_desktop_duplication.rs:185-187). -/
def DxgiDesktopDuplication.reset (_s : DxgiDesktopDuplication) :
    DxgiDesktopDuplication :=
  { duplication := none }

/-- `DxgiDesktopDuplication::initialize_primary_output`
(dxgi_desktop_duplication.rs:88-114): on success stores a fresh
duplication session; on any of the factory / adapter / output /
duplication failures (environment input `ok`) the stored session is left
unchanged and an error is returned. -/
def DxgiDesktopDuplication.initialize_primary_output
    (s : DxgiDesktopDuplication) (ok : Bool) :
    DxgiDesktopDuplication × Except DxgiError Unit :=
  if ok then
    ({ duplication := some () }, Except.ok ())
  else
    (s, Except.error DxgiError.DuplicationError)

/-- `ProcessingMethod` from `texture_processor.rs`. -/
inductive ProcessingMethod where
  | CpuCopy
  | GpuOptimized
  | GpuCompute
  | GpuShader
deriving DecidableEq, Repr

/-- `ProcessedFrame` from `texture_processor.rs`. -/
structure ProcessedFrame where
  data : List Nat
  width : Nat
  height : Nat
  format : FrameFormat
  timestamp : Nat
  processing_method : ProcessingMethod
deriving DecidableEq, Repr

/-- `TextureProcessor::extract_frame_data` (texture_processor.rs:68-82):
with GPU processing enabled, try `extract_with_gpu` first and return its
frame on success; on its failure (logged, not surfaced) fall through to
`extract_with_cpu`, whose result is returned as-is.  With GPU processing
disabled only the CPU path runs.  The outcomes of the two hardware paths
are inputs of the environment. -/
def TextureProcessor.extract_frame_data (gpu_processing_enabled : Bool)
    (gpu_path cpu_path : Except String ProcessedFrame) :
    Except String ProcessedFrame :=
  if gpu_processing_enabled then
    match gpu_path with
    | Except.ok frame => Except.ok frame
    | Except.error _ => cpu_path
  else
    cpu_path

/-- `DxgiCapture::convert_platform_format` (graphics_capture.rs:274-281). -/
def convert_platform_format (format : FrameFormat) : FrameFormat :=
  match format with
  | FrameFormat.Bgra8 => FrameFormat.Bgra8
  | FrameFormat.Rgba8 => FrameFormat.Rgba8
  | FrameFormat.Rgb8 => FrameFormat.Rgb8
  | FrameFormat.Jpeg => FrameFormat.Jpeg

/-- State threaded through `DxgiCapture::start_capture_loop`: the
duplication engine, the hub and the metrics. -/
structure DxgiCaptureState where
  dupl : DxgiDesktopDuplication
  hub : BroadcastState
  metrics : CaptureMetrics
deriving DecidableEq, Repr

/-- How one iteration of `DxgiCapture::start_capture_loop` ends: the loop
keeps going, or the function returns `Err` (reinitialization failure or a
non-recoverable capture error). -/
inductive DxgiLoopOutcome where
  | continued
  | failed (msg : String)
deriving DecidableEq, Repr

/-- One iteration body of `DxgiCapture::start_capture_loop`
(graphics_capture.rs:197-252).  `os` is the OS outcome of
`capture_frame`, `extract` the outcome of
`texture_processor.extract_frame_data`, `reinit_ok` whether
reinitialization after `AccessLost` succeeds, `elapsed` the wall-clock
reading of this iteration.  On a frame: extract, publish via the shared
publish step (extraction failure only skips the publish), and charge
`elapsed`.  `Ok(None)` and `Timeout` just continue.  `AccessLost` resets
the engine and reinitializes, continuing on success and returning `Err`
on failure; other errors return `Err`. -/
def dxgi_capture_loop_iter (st : DxgiCaptureState) (os : AcquireResult)
    (extract : Except String ProcessedFrame) (reinit_ok : Bool)
    (elapsed : Nat) : DxgiCaptureState × DxgiLoopOutcome :=
  let cap := st.dupl.capture_frame os
  match cap.2 with
  | Except.ok (some _texture) =>
      match extract with
      | Except.ok pf =>
          let frame : CapturedFrame :=
            { data := pf.data
              width := pf.width
              height := pf.height
              format := convert_platform_format pf.format
              timestamp := pf.timestamp
              source := CaptureSource.DxgiDesktopDuplication }
          let pub := publish_step st.hub st.metrics frame elapsed
          ({ dupl := cap.1, hub := pub.1, metrics := pub.2 },
           DxgiLoopOutcome.continued)
      | Except.error _ =>
          ({ st with
             dupl := cap.1
             metrics := { st.metrics with
               total_capture_time_ms :=
                 st.metrics.total_capture_time_ms + elapsed } },
           DxgiLoopOutcome.continued)
  | Except.ok none =>
      ({ st with dupl := cap.1 }, DxgiLoopOutcome.continued)
  | Except.error DxgiError.AccessLost =>
      let d2 := cap.1.reset
      let init := d2.initialize_primary_output reinit_ok
      match init.2 with
      | Except.ok _ => ({ st with dupl := init.1 }, DxgiLoopOutcome.continued)
      | Except.error _ =>
          ({ st with dupl := init.1 },
           DxgiLoopOutcome.failed "Failed to reinitialize after access lost")
  | Except.error DxgiError.Timeout =>
      ({ st with dupl := cap.1 }, DxgiLoopOutcome.continued)
  | Except.error _ =>
      ({ st with dupl := cap.1 }, DxgiLoopOutcome.failed "DXGI capture error")

/-- A throwaway frame used by concrete instantiations. -/
def sample_frame : CapturedFrame :=
  { data := [7]
    width := 1
    height := 1
    format := FrameFormat.Rgba8
    timestamp := 0
    source := CaptureSource.WindowsGraphicsCapture }

/-- A well-formed raw frame wider than the 800-pixel display target. -/
def oversized_frame : CapturedFrame :=
  { data := List.replicate 3600 0
    width := 900
    height := 1
    format := FrameFormat.Rgba8
    timestamp := 0
    source := CaptureSource.DxgiDesktopDuplication }

/-- A well-formed raw frame within the 800×450 display target. -/
def small_raw_frame : CapturedFrame :=
  { data := List.replicate 16 0
    width := 2
    height := 2
    format := FrameFormat.Bgra8
    timestamp := 0
    source := CaptureSource.WindowsGraphicsCapture }

/-! ## Theorems -/

/-- C1 counterexample.  At the concrete state of a fresh service hub
(zero subscribers), publishing one frame makes the broadcast send fail
(tokio returns `SendError` with no receivers) and the publish step
increments `frames_dropped` from 0 to 1 — the claim says the publish
succeeds and `frames_dropped` is not incremented. -/
theorem C1_counterexample :
    broadcast_send GraphicsCaptureService.new_hub sample_frame =
      (GraphicsCaptureService.new_hub, false) ∧
    (publish_step GraphicsCaptureService.new_hub CaptureMetrics.new
        sample_frame 0).2.frames_dropped = 1 ∧
    CaptureMetrics.new.frames_dropped = 0 := by
  refine ⟨rfl, rfl, rfl⟩

/-- C1 amended: for every publish to the hub while it has zero
subscribers, the broadcast send fails, the frame is not retained by the
hub, `frames_dropped` is incremented by exactly one, and
`frames_captured` is unchanged. -/
theorem C1_amended_zero_subscribers_drop_counted (hub : BroadcastState)
    (m : CaptureMetrics) (f : CapturedFrame) (elapsed : Nat)
    (h : hub.receiver_count = 0) :
    (publish_step hub m f elapsed).1 = hub ∧
    (publish_step hub m f elapsed).2.frames_dropped = m.frames_dropped + 1 ∧
    (publish_step hub m f elapsed).2.frames_captured = m.frames_captured := by
  simp [publish_step, broadcast_send, h]

/-- C1 witness: the amended statement at the fresh hub. -/
theorem C1_witness :
    (publish_step GraphicsCaptureService.new_hub CaptureMetrics.new
        sample_frame 5).1 = GraphicsCaptureService.new_hub ∧
    (publish_step GraphicsCaptureService.new_hub CaptureMetrics.new
        sample_frame 5).2.frames_dropped =
      CaptureMetrics.new.frames_dropped + 1 ∧
    (publish_step GraphicsCaptureService.new_hub CaptureMetrics.new
        sample_frame 5).2.frames_captured =
      CaptureMetrics.new.frames_captured :=
  C1_amended_zero_subscribers_drop_counted GraphicsCaptureService.new_hub
    CaptureMetrics.new sample_frame 5 rfl

/-- C2: a subscriber of a capacity-100 hub whose cursor has fallen behind
the retained history receives on its next `recv` a lag notification whose
skip count is exactly the number of frames it will never see
(`published − 100 − cursor`), with its cursor jumped to the oldest
retained frame; and the processing loop, on a lag of `k` frames, adds `k`
to `frames_dropped`, leaves the latest-value channel untouched and keeps
looping (it does not break). -/
theorem C2_lag_exact_skip_and_loop_continues (hub : BroadcastState)
    (hubClosed : Bool) (cursor : Nat) (hcap : hub.capacity = 100)
    (hlag : cursor < hub.history.length - 100) :
    recv_next hub hubClosed cursor =
      RecvAttempt.lagged ((hub.history.length - 100) - cursor)
        (hub.history.length - 100) ∧
    ∀ (st : LoopState) (k : Nat) (w : Bool) (o e p : Nat),
      minimap_loop_iter (RecvOutcome.lagged k) st w o e p =
        ({ metrics := { st.metrics with
             frames_dropped := st.metrics.frames_dropped + k }
           latest := st.latest }, true) := by
  constructor
  · have hlen : 100 ≤ hub.history.length := by omega
    unfold recv_next oldest_retained
    rw [hcap, Nat.min_eq_right hlen, if_pos (by omega)]
  · intro st k w o e p
    rfl

/-- C2 witness: a hub holding 101 published frames and a subscriber still
at cursor 0 receives `Lagged 1` and jumps to cursor 1; the loop applied to
a lag of 5 at a concrete state adds 5 to `frames_dropped` and continues. -/
theorem C2_witness :
    recv_next { capacity := 100, history := List.replicate 101 sample_frame,
                receiver_count := 1 } false 0 =
      RecvAttempt.lagged 1 1 ∧
    minimap_loop_iter (RecvOutcome.lagged 5)
        { metrics := MinimapMetrics.new, latest := none } true 0 0 0 =
      ({ metrics := { MinimapMetrics.new with frames_dropped := 5 }
         latest := none }, true) := by
  have h := C2_lag_exact_skip_and_loop_continues
    { capacity := 100, history := List.replicate 101 sample_frame,
      receiver_count := 1 } false 0 rfl (by simp)
  exact ⟨h.1, h.2 { metrics := MinimapMetrics.new, latest := none } 5 true 0 0 0⟩

/-- Scaling a loop index by the integer scale factor stays inside the
source extent: `x * (w / n) < w` for `x < n`, `0 < w`. -/
theorem scaled_index_lt (x n w : Nat) (hx : x < n) (hw : 0 < w) :
    x * (w / n) < w := by
  rcases Nat.eq_zero_or_pos (w / n) with h0 | hpos
  · simpa [h0] using hw
  · have h1 : x * (w / n) < n * (w / n) :=
      Nat.mul_lt_mul_of_lt_of_le hx (Nat.le_refl _) hpos
    have h2 : n * (w / n) ≤ w := by
      rw [Nat.mul_comm]
      exact Nat.div_mul_le_self w n
    exact Nat.lt_of_lt_of_le h1 h2

/-- Length of a flattened map over `List.range` whose entries all have
length `c`. -/
theorem flatten_map_range_length {α : Type} (f : Nat → List α) (c : Nat) :
    ∀ n : Nat, (∀ i, i < n → (f i).length = c) →
      (((List.range n).map f).flatten).length = c * n := by
  intro n
  induction n with
  | zero => intro _; simp
  | succ m ih =>
      intro h
      rw [List.range_succ, List.map_append, List.flatten_append]
      simp only [List.map_cons, List.map_nil, List.flatten_cons,
        List.flatten_nil, List.length_append]
      rw [ih (fun i hi => h i (Nat.lt_succ_of_lt hi)),
        h m (Nat.lt_succ_self m)]
      simp [Nat.mul_succ]

/-- Under a well-formed source buffer (`len = src_w * src_h * 4` with
positive extents), every guarded pixel copy of the downsample loop emits
exactly three bytes. -/
theorem downsample_pixel_length_eq (data : List Nat)
    (src_w src_h dst_w dst_h : Nat) (b : Bool)
    (hlen : data.length = src_w * src_h * 4)
    (hw : 0 < src_w) (hh : 0 < src_h) (x y : Nat)
    (hx : x < dst_w) (hy : y < dst_h) :
    (downsample_pixel data src_w (src_w / dst_w) (src_h / dst_h) b x y).length
      = 3 := by
  have hsx : x * (src_w / dst_w) < src_w := scaled_index_lt x dst_w src_w hx hw
  have hsy : y * (src_h / dst_h) < src_h := scaled_index_lt y dst_h src_h hy hh
  have h1 : y * (src_h / dst_h) * src_w + x * (src_w / dst_w) <
      src_h * src_w := by
    have h2 : y * (src_h / dst_h) * src_w + src_w = (y * (src_h / dst_h) + 1) * src_w := by
      ring
    have h3 : (y * (src_h / dst_h) + 1) * src_w ≤ src_h * src_w :=
      Nat.mul_le_mul_right src_w (Nat.succ_le_of_lt hsy)
    omega
  have hidx : (y * (src_h / dst_h) * src_w + x * (src_w / dst_w)) * 4 + 3 <
      data.length := by
    have h4 : src_h * src_w * 4 = src_w * src_h * 4 := by ring
    omega
  cases b <;> simp [downsample_pixel, hidx]

/-- `downsample_and_encode` succeeds on a well-formed source buffer and
its output decodes to exactly the requested destination dimensions. -/
theorem downsample_and_encode_ok (data : List Nat)
    (src_w src_h dst_w dst_h : Nat) (b : Bool)
    (hlen : data.length = src_w * src_h * 4)
    (hw : 0 < src_w) (hh : 0 < src_h) :
    ∃ out, downsample_and_encode data src_w src_h dst_w dst_h b =
        Except.ok out ∧ jpeg_dims out = some (dst_w, dst_h) := by
  have hrow : ∀ y, y < dst_h →
      (((List.range dst_w).map (fun x =>
        downsample_pixel data src_w (src_w / dst_w) (src_h / dst_h) b x y)).flatten).length
        = 3 * dst_w := by
    intro y hy
    exact flatten_map_range_length _ 3 dst_w
      (fun x hx => downsample_pixel_length_eq data src_w src_h dst_w dst_h b
        hlen hw hh x y hx hy)
  have htotal :
      (((List.range dst_h).map (fun y =>
        ((List.range dst_w).map (fun x =>
          downsample_pixel data src_w (src_w / dst_w) (src_h / dst_h) b x y)).flatten)).flatten).length
        = 3 * dst_w * dst_h :=
    flatten_map_range_length _ (3 * dst_w) dst_h hrow
  have hcond : (((List.range dst_h).map (fun y =>
      ((List.range dst_w).map (fun x =>
        downsample_pixel data src_w (src_w / dst_w) (src_h / dst_h) b x y)).flatten)).flatten).length
      = dst_w * dst_h * 3 := by
    rw [htotal]; ring
  refine ⟨dst_w :: dst_h :: 30 ::
      (((List.range dst_h).map (fun y =>
        ((List.range dst_w).map (fun x =>
          downsample_pixel data src_w (src_w / dst_w) (src_h / dst_h) b x y)).flatten)).flatten),
    ?_, rfl⟩
  simp [downsample_and_encode, jpeg_encode_rgb, hcond]

/-- `chunks_exact(4)`-style BGRA→RGB conversion of a `4 * n`-byte buffer
yields `3 * n` bytes. -/
theorem bgra_to_rgb_length : ∀ (n : Nat) (l : List Nat),
    l.length = 4 * n → (bgra_to_rgb l).length = 3 * n := by
  intro n
  induction n with
  | zero =>
      intro l hl
      have : l = [] := List.eq_nil_of_length_eq_zero (by omega)
      subst this
      simp [bgra_to_rgb]
  | succ m ih =>
      intro l hl
      match l with
      | [] => simp at hl
      | [a] => simp at hl; omega
      | [a, b] => simp at hl; omega
      | [a, b, c] => simp at hl; omega
      | a :: b :: c :: d :: rest =>
          have hrest : rest.length = 4 * m := by
            simp at hl
            omega
          simp [bgra_to_rgb, ih rest hrest]
          omega

/-- `chunks_exact(4)`-style RGBA→RGB conversion of a `4 * n`-byte buffer
yields `3 * n` bytes. -/
theorem rgba_to_rgb_length : ∀ (n : Nat) (l : List Nat),
    l.length = 4 * n → (rgba_to_rgb l).length = 3 * n := by
  intro n
  induction n with
  | zero =>
      intro l hl
      have : l = [] := List.eq_nil_of_length_eq_zero (by omega)
      subst this
      simp [rgba_to_rgb]
  | succ m ih =>
      intro l hl
      match l with
      | [] => simp at hl
      | [a] => simp at hl; omega
      | [a, b] => simp at hl; omega
      | [a, b, c] => simp at hl; omega
      | a :: b :: c :: d :: rest =>
          have hrest : rest.length = 4 * m := by
            simp at hl
            omega
          simp [rgba_to_rgb, ih rest hrest]
          omega

/-- `encode_frame_webp` succeeds on a well-formed raw buffer and its
output decodes to the original dimensions. -/
theorem encode_frame_webp_ok (data : List Nat) (w h : Nat) (b : Bool)
    (hlen : data.length = w * h * 4) :
    ∃ out, encode_frame_webp data w h b = Except.ok out ∧
      jpeg_dims out = some (w, h) := by
  have h4 : data.length = 4 * (w * h) := by omega
  have hrgb : (if b then bgra_to_rgb data else rgba_to_rgb data).length
      = w * h * 3 := by
    cases b
    · have := rgba_to_rgb_length (w * h) data h4
      simpa [Nat.mul_comm] using this
    · have := bgra_to_rgb_length (w * h) data h4
      simpa [Nat.mul_comm] using this
  refine ⟨w :: h :: 30 :: (if b then bgra_to_rgb data else rgba_to_rgb data),
    ?_, rfl⟩
  simp [encode_frame_webp, jpeg_encode_rgb, hrgb]

/-- C4: the encode step of `process_minimap_frame` on a frame whose format
is already JPEG returns the frame's own bytes unchanged (pass-through,
no re-encoding or resizing). -/
theorem C4_jpeg_passthrough (frame : CapturedFrame)
    (h : frame.format = FrameFormat.Jpeg) :
    encode_step frame = Except.ok frame.data := by
  simp [encode_step, h]

/-- C4 witness: a concrete JPEG frame passes through byte-identically. -/
theorem C4_witness :
    encode_step { data := [9, 8, 7], width := 3, height := 2,
                  format := FrameFormat.Jpeg, timestamp := 0,
                  source := CaptureSource.DxgiDesktopDuplication } =
      Except.ok [9, 8, 7] :=
  C4_jpeg_passthrough _ rfl

/-- C5: a `stop_capture` call that observes the `is_stopping` guard
already set returns `Ok` immediately with the state untouched (no
teardown side effect at all), while a call that takes the guard performs
the full teardown exactly once: clears the processing flag, target and
subscription state, publishes the empty value, stops the capture service,
and releases the guard. -/
theorem C5_stop_idempotent_guard (s t : MinimapServiceState)
    (hs : s.is_stopping = true) (ht : t.is_stopping = false) :
    MinimapService.stop_capture s = (s, false, true) ∧
    MinimapService.stop_capture t =
      ({ is_processing := false, is_stopping := false,
         current_window_title := none, has_frame_receiver := false,
         latest := none,
         graphics := { capture_control := false, dxgi_capture := false } },
       true, true) := by
  constructor
  · simp [MinimapService.stop_capture, hs]
  · simp [MinimapService.stop_capture, ht, GraphicsCaptureService.stop_capture]

/-- C5 witness: a mid-stop state (guard set) is returned untouched with
`Ok`, and a quiescent running state is torn down exactly once. -/
theorem C5_witness :
    MinimapService.stop_capture
        { is_processing := false, is_stopping := true,
          current_window_title := none, has_frame_receiver := false,
          latest := none,
          graphics := { capture_control := true, dxgi_capture := false } } =
      ({ is_processing := false, is_stopping := true,
         current_window_title := none, has_frame_receiver := false,
         latest := none,
         graphics := { capture_control := true, dxgi_capture := false } },
       false, true) ∧
    MinimapService.stop_capture
        { is_processing := true, is_stopping := false,
          current_window_title := some "game", has_frame_receiver := true,
          latest := some [1],
          graphics := { capture_control := true, dxgi_capture := true } } =
      ({ is_processing := false, is_stopping := false,
         current_window_title := none, has_frame_receiver := false,
         latest := none,
         graphics := { capture_control := false, dxgi_capture := false } },
       true, true) :=
  C5_stop_idempotent_guard _ _ rfl rfl

/-- C6: when `capture_frame` fails with `AccessLost`, the duplication
session is cleared (the engine is back to Uninitialized: `is_active` is
false and any further `capture_frame` without `initialize` fails with
`InvalidCall`); the capture-loop iteration then resets and reinitializes
the engine and — when reinitialization succeeds — continues with a bound
session, never incrementing `frames_dropped` for the recovery itself. -/
theorem C6_access_lost_recovery (st : DxgiCaptureState)
    (extract : Except String ProcessedFrame) (reinit_ok : Bool)
    (elapsed : Nat) (hbound : st.dupl.duplication = some ()) :
    (st.dupl.capture_frame AcquireResult.errAccessLost).2 =
      Except.error DxgiError.AccessLost ∧
    (st.dupl.capture_frame AcquireResult.errAccessLost).1.duplication = none ∧
    DxgiDesktopDuplication.is_active
      (st.dupl.capture_frame AcquireResult.errAccessLost).1 = false ∧
    (∀ os, (DxgiDesktopDuplication.capture_frame { duplication := none } os).2 =
      Except.error DxgiError.InvalidCall) ∧
    (dxgi_capture_loop_iter st AcquireResult.errAccessLost extract reinit_ok
        elapsed).1.metrics.frames_dropped = st.metrics.frames_dropped ∧
    (reinit_ok = true →
      (dxgi_capture_loop_iter st AcquireResult.errAccessLost extract reinit_ok
          elapsed).2 = DxgiLoopOutcome.continued ∧
      (dxgi_capture_loop_iter st AcquireResult.errAccessLost extract reinit_ok
          elapsed).1.dupl.duplication = some ()) := by
  refine ⟨?_, ?_, ?_, ?_, ?_, ?_⟩
  · simp [DxgiDesktopDuplication.capture_frame, hbound]
  · simp [DxgiDesktopDuplication.capture_frame, hbound]
  · simp [DxgiDesktopDuplication.capture_frame, DxgiDesktopDuplication.is_active,
      hbound]
  · intro os
    rfl
  · cases reinit_ok <;>
      simp [dxgi_capture_loop_iter, DxgiDesktopDuplication.capture_frame, hbound,
        DxgiDesktopDuplication.reset, DxgiDesktopDuplication.initialize_primary_output]
  · intro hre
    subst hre
    refine ⟨?_, ?_⟩ <;>
      simp [dxgi_capture_loop_iter, DxgiDesktopDuplication.capture_frame, hbound,
        DxgiDesktopDuplication.reset, DxgiDesktopDuplication.initialize_primary_output]

/-- C6 witness: the recovery statement at a concrete bound engine,
a failing extraction oracle and a succeeding reinitialization. -/
theorem C6_witness :
    ({ dupl := { duplication := some () },
       hub := GraphicsCaptureService.new_hub,
       metrics := CaptureMetrics.new :
         DxgiCaptureState }.dupl.capture_frame
        AcquireResult.errAccessLost).2 = Except.error DxgiError.AccessLost ∧
    (dxgi_capture_loop_iter
        { dupl := { duplication := some () },
          hub := GraphicsCaptureService.new_hub,
          metrics := CaptureMetrics.new }
        AcquireResult.errAccessLost (Except.error "no extraction") true
        0).1.metrics.frames_dropped = CaptureMetrics.new.frames_dropped ∧
    (dxgi_capture_loop_iter
        { dupl := { duplication := some () },
          hub := GraphicsCaptureService.new_hub,
          metrics := CaptureMetrics.new }
        AcquireResult.errAccessLost (Except.error "no extraction") true
        0).2 = DxgiLoopOutcome.continued := by
  have h := C6_access_lost_recovery
    { dupl := { duplication := some () },
      hub := GraphicsCaptureService.new_hub,
      metrics := CaptureMetrics.new }
    (Except.error "no extraction") true 0 rfl
  exact ⟨h.1, h.2.2.2.2.1, (h.2.2.2.2.2 rfl).1⟩

/-- C7: with GPU processing enabled, `extract_frame_data` returns the
GPU path's frame whenever that path succeeds; any GPU-path failure falls
back to the CPU path, whose result is returned as-is, so the extraction
errors exactly when the GPU path fails and the CPU path also fails.
With GPU processing disabled, only the CPU path is used. -/
theorem C7_gpu_fallback_policy (g c : Except String ProcessedFrame) :
    (∀ f, g = Except.ok f →
      TextureProcessor.extract_frame_data true g c = Except.ok f) ∧
    (∀ e, g = Except.error e →
      TextureProcessor.extract_frame_data true g c = c) ∧
    ((∃ e, TextureProcessor.extract_frame_data true g c = Except.error e) ↔
      (∃ e, g = Except.error e) ∧ (∃ e, c = Except.error e)) ∧
    TextureProcessor.extract_frame_data false g c = c := by
  cases g <;> cases c <;>
    simp [TextureProcessor.extract_frame_data]

/-- C7 witness: with the GPU path failing and the CPU path producing a
frame, extraction returns the CPU frame (no error surfaced); with GPU
processing disabled the CPU result is returned as well. -/
theorem C7_witness :
    TextureProcessor.extract_frame_data true (Except.error "gpu boom")
      (Except.ok { data := [0], width := 1, height := 1,
                   format := FrameFormat.Bgra8, timestamp := 0,
                   processing_method := ProcessingMethod.CpuCopy }) =
      Except.ok { data := [0], width := 1, height := 1,
                  format := FrameFormat.Bgra8, timestamp := 0,
                  processing_method := ProcessingMethod.CpuCopy } ∧
    TextureProcessor.extract_frame_data false (Except.error "gpu boom")
      (Except.ok { data := [0], width := 1, height := 1,
                   format := FrameFormat.Bgra8, timestamp := 0,
                   processing_method := ProcessingMethod.CpuCopy }) =
      Except.ok { data := [0], width := 1, height := 1,
                  format := FrameFormat.Bgra8, timestamp := 0,
                  processing_method := ProcessingMethod.CpuCopy } :=
  ⟨(C7_gpu_fallback_policy _ _).2.1 "gpu boom" rfl,
   (C7_gpu_fallback_policy _ _).2.2.2⟩

/-- C8 counterexample.  The service-state query
(`MinimapService::is_capturing`) reports capturing on a concrete state
whose orchestrator reports no active capture and whose target is unset,
and reports not-capturing on a state whose orchestrator is actively
capturing with a target bound: the query tracks the internal flag and
ignores the orchestrator's reality entirely, contrary to the claim that
its result reconciles the flags with orchestrator activity and target
presence. -/
theorem C8_counterexample :
    MinimapService.is_capturing
        { is_processing := true, is_stopping := false,
          current_window_title := none, has_frame_receiver := false,
          latest := none,
          graphics := { capture_control := false, dxgi_capture := false } } =
      true ∧
    GraphicsCaptureService.is_capturing
        { capture_control := false, dxgi_capture := false } = false ∧
    MinimapService.is_capturing
        { is_processing := false, is_stopping := false,
          current_window_title := some "game", has_frame_receiver := true,
          latest := none,
          graphics := { capture_control := true, dxgi_capture := false } } =
      false ∧
    GraphicsCaptureService.is_capturing
        { capture_control := true, dxgi_capture := false } = true :=
  ⟨rfl, rfl, rfl, rfl⟩

/-- C8 amended: the service-state query returns the internal
`is_processing` flag alone — any two service states with the same flag
yield the same answer, regardless of the orchestrator's capture activity
or of whether a target window is set. -/
theorem C8_amended_flag_only_state_query (s1 s2 : MinimapServiceState)
    (h : s1.is_processing = s2.is_processing) :
    MinimapService.is_capturing s1 = MinimapService.is_capturing s2 := by
  simp [MinimapService.is_capturing, h]

/-- C8 witness: two states agreeing only on the internal flag — one with
an active orchestrator and bound target, one with neither — get the same
answer from the query. -/
theorem C8_witness :
    MinimapService.is_capturing
        { is_processing := true, is_stopping := false,
          current_window_title := some "game", has_frame_receiver := true,
          latest := none,
          graphics := { capture_control := true, dxgi_capture := true } } =
      MinimapService.is_capturing
        { is_processing := true, is_stopping := true,
          current_window_title := none, has_frame_receiver := false,
          latest := none,
          graphics := { capture_control := false, dxgi_capture := false } } :=
  C8_amended_flag_only_state_query _ _ rfl

/-- C9 counterexample.  `active_subscribers` is not monotone: a publish
step run while the hub has one receiver overwrites an earlier stored
value of two with one — the counter decreases under an ordinary
operation, with no operator reset involved. -/
theorem C9_counterexample :
    (publish_step
        { capacity := 100, history := [], receiver_count := 1 }
        { frames_captured := 0, frames_dropped := 0,
          total_capture_time_ms := 0, active_subscribers := 2 }
        sample_frame 0).2.active_subscribers <
      ({ frames_captured := 0, frames_dropped := 0,
         total_capture_time_ms := 0, active_subscribers := 2 } :
        CaptureMetrics).active_subscribers := by
  decide

/-- C9 amended: under every publish step, `frames_captured`,
`frames_dropped` and `total_capture_time_ms` are monotonically
non-decreasing, while `active_subscribers` is a gauge overwritten with
the hub's current receiver count (it may decrease when subscribers
drop). -/
theorem C9_amended_metrics_monotonicity (hub : BroadcastState)
    (m : CaptureMetrics) (f : CapturedFrame) (elapsed : Nat) :
    m.frames_captured ≤ (publish_step hub m f elapsed).2.frames_captured ∧
    m.frames_dropped ≤ (publish_step hub m f elapsed).2.frames_dropped ∧
    m.total_capture_time_ms ≤
      (publish_step hub m f elapsed).2.total_capture_time_ms ∧
    (publish_step hub m f elapsed).2.active_subscribers =
      hub.receiver_count := by
  by_cases h : 0 < hub.receiver_count <;>
    simp [publish_step, broadcast_send, h]

/-- C3: a raw BGRA8/RGBA8 frame with a well-formed pixel buffer whose
width exceeds 800 or whose height exceeds 450 is routed through the
box-filter downsample-and-encode step and the encoded output decodes to
exactly 800×450; a raw frame within 800×450 is encoded directly at its
original dimensions without downsampling. -/
theorem C3_encode_dimension_policy (f : CapturedFrame)
    (hfmt : f.format = FrameFormat.Rgba8 ∨ f.format = FrameFormat.Bgra8)
    (hlen : f.data.length = f.width * f.height * 4)
    (hw : 0 < f.width) (hh : 0 < f.height) :
    (800 < f.width ∨ 450 < f.height →
      encode_step f =
        downsample_and_encode f.data f.width f.height 800 450
          (f.format = FrameFormat.Bgra8) ∧
      ∃ out, encode_step f = Except.ok out ∧
        jpeg_dims out = some (800, 450)) ∧
    (f.width ≤ 800 → f.height ≤ 450 →
      encode_step f =
        encode_frame_webp f.data f.width f.height
          (f.format = FrameFormat.Bgra8) ∧
      ∃ out, encode_step f = Except.ok out ∧
        jpeg_dims out = some (f.width, f.height)) := by
  constructor
  · intro hbig
    have hbool : (decide (800 < f.width) || decide (450 < f.height)) = true := by
      rcases hbig with h | h <;> simp [h]
    have hstep : encode_step f =
        downsample_and_encode f.data f.width f.height 800 450
          (decide (f.format = FrameFormat.Bgra8)) := by
      rcases hfmt with hf | hf <;> simp [encode_step, hf, hbool]
    obtain ⟨out, hout, hdims⟩ :=
      downsample_and_encode_ok f.data f.width f.height 800 450
        (decide (f.format = FrameFormat.Bgra8)) hlen hw hh
    exact ⟨hstep, out, hstep.trans hout, hdims⟩
  · intro hwle hhle
    have h1 : ¬ (800 < f.width) := by omega
    have h2 : ¬ (450 < f.height) := by omega
    have hbool : (decide (800 < f.width) || decide (450 < f.height)) = false := by
      simp [h1, h2]
    have hstep : encode_step f =
        encode_frame_webp f.data f.width f.height
          (decide (f.format = FrameFormat.Bgra8)) := by
      rcases hfmt with hf | hf <;> simp [encode_step, hf, hbool]
    obtain ⟨out, hout, hdims⟩ :=
      encode_frame_webp_ok f.data f.width f.height
        (decide (f.format = FrameFormat.Bgra8)) hlen
    exact ⟨hstep, out, hstep.trans hout, hdims⟩

/-- C3 witness: a 900×1 RGBA frame encodes to an 800×450 output; a 2×2
BGRA frame encodes at 2×2. -/
theorem C3_witness :
    (∃ out, encode_step oversized_frame = Except.ok out ∧
      jpeg_dims out = some (800, 450)) ∧
    (∃ out, encode_step small_raw_frame = Except.ok out ∧
      jpeg_dims out = some (2, 2)) := by
  constructor
  · exact ((C3_encode_dimension_policy oversized_frame (Or.inl rfl)
      (by norm_num [oversized_frame, List.length_replicate]) (by decide) (by decide)).1
      (Or.inl (by decide))).2
  · exact ((C3_encode_dimension_policy small_raw_frame (Or.inr rfl)
      (by norm_num [small_raw_frame, List.length_replicate]) (by decide) (by decide)).2
      (by decide) (by decide)).2

/-- C10: a captured frame whose pixel buffer is empty makes
`process_minimap_frame` return an error without touching the metrics, and
the loop iteration for it increments `frames_dropped` by one, leaves the
latest-value channel unchanged, and continues with the next frame. -/
theorem C10_empty_frame_dropped (f : CapturedFrame) (st : LoopState)
    (w : Bool) (o e p : Nat) (h : f.data = []) :
    process_minimap_frame f st.metrics o e =
      (Except.error
        "Empty frame data received from graphics capture (DXGI placeholder)",
       st.metrics) ∧
    minimap_loop_iter (RecvOutcome.ok f) st w o e p =
      ({ metrics := { st.metrics with
           frames_dropped := st.metrics.frames_dropped + 1
           total_processing_time_ms :=
             st.metrics.total_processing_time_ms + p }
         latest := st.latest }, true) := by
  have hempty : f.data.isEmpty = true := by simp [h]
  constructor
  · simp [process_minimap_frame, hempty]
  · simp [minimap_loop_iter, process_minimap_frame, hempty]

/-- C10 witness: a concrete empty DXGI placeholder frame is rejected and
counted as dropped while the latest value survives. -/
theorem C10_witness :
    process_minimap_frame
        { data := [], width := 1920, height := 1080,
          format := FrameFormat.Bgra8, timestamp := 0,
          source := CaptureSource.DxgiDesktopDuplication }
        MinimapMetrics.new 0 0 =
      (Except.error
        "Empty frame data received from graphics capture (DXGI placeholder)",
       MinimapMetrics.new) ∧
    minimap_loop_iter
        (RecvOutcome.ok
          { data := [], width := 1920, height := 1080,
            format := FrameFormat.Bgra8, timestamp := 0,
            source := CaptureSource.DxgiDesktopDuplication })
        { metrics := MinimapMetrics.new, latest := some [3, 4] } true 0 0 7 =
      ({ metrics := { MinimapMetrics.new with
           frames_dropped := 1, total_processing_time_ms := 7 }
         latest := some [3, 4] }, true) :=
  C10_empty_frame_dropped _
    { metrics := MinimapMetrics.new, latest := some [3, 4] } true 0 0 7 rfl
